import Mathlib

/-!
Verification of the core data model and orchestrator contract of the
LidarSlam library (LOAM-style LiDAR SLAM).

The development shallowly embeds the `Slam` class of
`slam_lib/include/LidarSlam/Slam.h` (the canonical header, whose second
registration stage is called "Localization"), together with the older
divergent header (whose second stage is called "Mapping" and which declares
the `EgoMotionMode`, `UndistortionMode` and `MatchingResult` enums and
different parameter defaults).

The repository ships only the class declarations, inline accessors and
default member values; the bodies of `AddFrame`, `CheckFrame`,
`LogCurrentFrameState`, `Reset` and the `RollingGrid` container are not part
of the sources.  Where a definition embeds such a missing body it is modelled
from the specification document and its doc comment says so explicitly.

Scalars (C++ `double`) are modelled as rationals: every default value
appearing in the headers (5.0, 20.0, 0.2, ...) is exactly representable, and
none of the verified properties depends on rounding.  Rigid transforms
(`Eigen::Isometry3d`) are modelled as elements of an abstract multiplicative
group `G`: the verified properties use only composition, inverse and
identity.
-/

namespace LidarSlam

/-- A 3D position, used for map keypoints and grid centers. -/
abbrev Point3 : Type := ℚ × ℚ × ℚ

/-- Chebyshev (max-norm) distance between two 3D points. -/
def cheb (p q : Point3) : ℚ :=
  max |p.1 - q.1| (max |p.2.1 - q.2.1| |p.2.2 - q.2.2|)

/-- Squared Euclidean distance between two 3D points. -/
def sqDist (p q : Point3) : ℚ :=
  (p.1 - q.1) ^ 2 + (p.2.1 - q.2.1) ^ 2 + (p.2.2 - q.2.2) ^ 2

/-- One point of an input LiDAR sweep (`LidarPoint`): position, intensity,
laser id and acquisition time within the sweep. -/
structure LidarPoint where
  x : ℚ
  y : ℚ
  z : ℚ
  intensity : ℚ
  laserId : ℕ
  time : ℚ
  deriving DecidableEq

/-- An input point cloud: ordered points plus a sweep-end timestamp
(seconds) and the source frame identifier, as carried by the PCL header. -/
structure PointCloud where
  stamp : ℚ
  frameId : String
  points : List LidarPoint
  deriving DecidableEq

/-- Result of the keypoint matching, explaining rejection cause of matching
failure (`Slam::MatchingResult` in the older header; the spelling `UNKOWN`
is the source's). -/
inductive MatchingResult where
  | SUCCESS
  | NOT_ENOUGH_NEIGHBORS
  | NEIGHBORS_TOO_FAR
  | BAD_PCA_STRUCTURE
  | INVALID_NUMERICAL
  | MSE_TOO_LARGE
  | UNKOWN
  deriving DecidableEq

/-- Numeric value of each matching result, as assigned in the source enum. -/
def MatchingResult.value : MatchingResult → ℕ
  | .SUCCESS => 0
  | .NOT_ENOUGH_NEIGHBORS => 1
  | .NEIGHBORS_TOO_FAR => 2
  | .BAD_PCA_STRUCTURE => 3
  | .INVALID_NUMERICAL => 4
  | .MSE_TOO_LARGE => 5
  | .UNKOWN => 6

/-- The list of all rejection causes, in enum order (`nRejectionCauses = 7`
buckets of the rejection histograms). -/
def allMatchingResults : List MatchingResult :=
  [.SUCCESS, .NOT_ENOUGH_NEIGHBORS, .NEIGHBORS_TOO_FAR, .BAD_PCA_STRUCTURE,
   .INVALID_NUMERICAL, .MSE_TOO_LARGE, .UNKOWN]

/-- Modelled from the spec: the per-class rejection histogram
(`MatchRejectionHistogramLine` / `...Plane` / `...Blob`).  The code filling
the `std::array<int, nRejectionCauses>` buckets from the per-keypoint
matching outcomes is not part of the sources; following the spec, bucket `c`
holds the number of keypoints of the class whose match outcome was `c`. -/
def matchRejectionHistogram (outcomes : List MatchingResult)
    (c : MatchingResult) : ℕ :=
  outcomes.count c

/-- The `RollingGrid`: a voxel-organized finite spatial window around the
sensor.  Modelled from the spec: the `RollingGrid` class implementation is
not part of the sources; following the spec, the grid has `VoxelGridSize`
voxels per side of edge length `VoxelGridResolution`, a current center, and
it stores only keypoints lying inside the window (occupied extent at most
`N*r` per axis, i.e. Chebyshev distance to center at most `N*r/2`). -/
structure RollingGrid where
  voxelGridSize : ℕ
  voxelGridResolution : ℚ
  gridCenter : Point3
  gridPoints : List Point3

namespace RollingGrid

/-- Half of the grid window extent: `N * r / 2`. -/
def halfExtent (g : RollingGrid) : ℚ :=
  g.voxelGridSize * g.voxelGridResolution / 2

/-- Whether a point lies inside the grid's current window. -/
def inWindow (g : RollingGrid) (p : Point3) : Bool :=
  decide (cheb p g.gridCenter ≤ g.halfExtent)

/-- A fresh, empty grid with given parameters, centered at the origin. -/
def empty (n : ℕ) (r : ℚ) : RollingGrid :=
  ⟨n, r, (0, 0, 0), []⟩

/-- Modelled from the spec: `RollingGrid` insertion.  Each inserted point is
kept only if it falls inside the current window (points whose voxel is
outside the window are dropped). -/
def insertPoints (g : RollingGrid) (pts : List Point3) : RollingGrid :=
  { g with gridPoints := g.gridPoints ++ pts.filter g.inWindow }

/-- Modelled from the spec: `RollingGrid` recentering (`center(pose)`).
The grid origin is shifted so the sensor lies inside; voxels that fall
outside the new window are dropped (eviction). -/
def rollToCenter (g : RollingGrid) (c : Point3) : RollingGrid :=
  { g with
    gridCenter := c
    gridPoints := g.gridPoints.filter fun p =>
      decide (cheb p c ≤ g.halfExtent) }

/-- Modelled from the spec: `clear()` drops all stored points. -/
def clearGrid (g : RollingGrid) : RollingGrid :=
  { g with gridPoints := [] }

/-- Modelled from the spec: `radius_query(p, r_max)` enumerates all stored
points within `r_max` of the query point. -/
def radiusQuery (g : RollingGrid) (q : Point3) (rmax : ℚ) : List Point3 :=
  g.gridPoints.filter fun p => decide (sqDist p q ≤ rmax * rmax)

/-- Insert a point into a list kept sorted by increasing squared distance
to the query point (helper for the k-nearest-neighbors query). -/
def insertByDist (q p : Point3) : List Point3 → List Point3
  | [] => [p]
  | x :: xs =>
    if sqDist p q ≤ sqDist x q then p :: x :: xs else x :: insertByDist q p xs

/-- Sort a list of points by increasing squared distance to the query point. -/
def sortByDist (q : Point3) : List Point3 → List Point3
  | [] => []
  | p :: ps => insertByDist q p (sortByDist q ps)

/-- Modelled from the spec: `knn(p, k)` returns the `k` stored points
nearest to the query point. -/
def knn (g : RollingGrid) (q : Point3) (k : ℕ) : List Point3 :=
  (sortByDist q g.gridPoints).take k

end RollingGrid

/-- A mutation of a rolling grid: keypoint insertion, window recentering, or
full clearing. -/
inductive GridOp where
  | insert (pts : List Point3)
  | recenter (c : Point3)
  | clear

/-- Apply one grid operation. -/
def applyGridOp (g : RollingGrid) : GridOp → RollingGrid
  | .insert pts => g.insertPoints pts
  | .recenter c => g.rollToCenter c
  | .clear => g.clearGrid

/-- Apply a sequence of grid operations in order. -/
def applyGridOps (g : RollingGrid) (ops : List GridOp) : RollingGrid :=
  ops.foldl applyGridOp g

/-- How to estimate Ego-Motion (`Slam::EgoMotionMode`). -/
inductive EgoMotionMode where
  | NONE
  | MOTION_EXTRAPOLATION
  | REGISTRATION
  | MOTION_EXTRAPOLATION_AND_REGISTRATION
  deriving DecidableEq

/-- How to deal with undistortion (`Slam::UndistortionMode`). -/
inductive UndistortionMode where
  | NONE
  | APPROXIMATED
  | OPTIMIZED
  deriving DecidableEq

/-- Octree compression mode of keypoint logging (`PointCloudStorageType`). -/
inductive PointCloudStorageType where
  | PCL_CLOUD
  | OCTREE_COMPRESSED
  deriving DecidableEq

/-- State of the spinning-sensor keypoint extractor, restricted to the part
the orchestrator's accessors touch (its worker-thread count, set through
`SpinningSensorKeypointExtractor::SetNbThreads`). -/
structure KeypointExtractorState where
  nbThreads : ℕ
  deriving DecidableEq

/-- One retained entry of the trajectory log: the pose `Tworld` computed for
a processed frame with its timestamp, and the 6x6 localization covariance of
that frame (DoF order X, Y, Z, rX, rY, rZ). -/
structure LogEntry (G : Type) where
  time : ℚ
  pose : G
  cov : Fin 6 → Fin 6 → ℚ

/-- A timestamped pose, as returned at the public boundary
(`Transform`: the internal isometry plus a timestamp). -/
structure Transform (G : Type) where
  time : ℚ
  pose : G

/-- The outcome of the data-dependent solver stages for one frame.  The ICP
matching and the Levenberg-Marquardt solves of the Ego-Motion and
Localization stages depend on point geometry that the orchestrator contract
does not constrain; the state machine is therefore universally quantified
over their results:
 - `icpTrelative`: relative motion produced by registration-based ego-motion
   (used only by the `REGISTRATION` modes);
 - `localize`: the Localization stage refinement, mapping the seed pose to
   the refined `Tworld`;
 - `cov`: the 6x6 covariance reported by the Localization solver, derived
   from the Hessian approximation, DoF order X, Y, Z, rX, rY, rZ;
 - `newCenter`: the sensor position used to recenter the rolling grids;
 - `edgePts`, `planarPts`, `blobPts`: the extracted keypoints of the frame,
   expressed in WORLD coordinates, to insert into the maps. -/
structure FrameOutcome (G : Type) where
  icpTrelative : G
  localize : G → G
  cov : Fin 6 → Fin 6 → ℚ
  newCenter : Point3
  edgePts : List Point3
  planarPts : List Point3
  blobPts : List Point3

/-- The state of a `Slam` object (canonical header), restricted to the
members the verified contract observes.  `G` is the group of rigid
transforms (`Eigen::Isometry3d`). -/
structure SlamState (G : Type) where
  nbThreads : ℕ
  extractor : KeypointExtractorState
  verbosity : ℤ
  fastSlam : Bool
  egoMotion : EgoMotionMode
  undistortion : UndistortionMode
  loggingTimeout : ℚ
  loggingStorage : PointCloudStorageType
  updateMap : Bool
  maxDistanceForICPMatching : ℚ
  worldFrameId : String
  baseFrameId : String
  nbrFrameProcessed : ℕ
  lastStamp : Option ℚ
  trelative : G
  tworld : G
  previousTworld : G
  covariance : Fin 6 → Fin 6 → ℚ
  logTrajectory : List (LogEntry G)
  edgesPointsLocalMap : RollingGrid
  planarPointsLocalMap : RollingGrid
  blobsPointsLocalMap : RollingGrid

/-- Default value of `MaxDistanceForICPMatching` in the canonical
("Localization") header `slam_lib/include/LidarSlam/Slam.h`. -/
def defaultMaxDistanceForICPMatching : ℚ := 5

/-- Default value of `MaxDistanceForICPMatching` in the older divergent
("Mapping") header. -/
def mappingHeaderMaxDistanceForICPMatching : ℚ := 20

/-- A freshly constructed `Slam` object from the canonical header: member
defaults as declared in `Slam.h`, identity poses, empty log and maps.
The default `VoxelGridSize` and `VoxelGridResolution` of the maps are not
declared in the shipped headers; they are left as parameters of the fresh
grids through `RollingGrid.empty 0 0` being replaced on configuration, which
none of the verified properties depends on. -/
def initSlam (G : Type) [Group G] : SlamState G where
  nbThreads := 1
  extractor := ⟨1⟩
  verbosity := 0
  fastSlam := true
  egoMotion := .MOTION_EXTRAPOLATION
  undistortion := .APPROXIMATED
  loggingTimeout := 0
  loggingStorage := .PCL_CLOUD
  updateMap := true
  maxDistanceForICPMatching := defaultMaxDistanceForICPMatching
  worldFrameId := "world"
  baseFrameId := ""
  nbrFrameProcessed := 0
  lastStamp := none
  trelative := 1
  tworld := 1
  previousTworld := 1
  covariance := fun _ _ => 0
  logTrajectory := []
  edgesPointsLocalMap := RollingGrid.empty 0 0
  planarPointsLocalMap := RollingGrid.empty 0 0
  blobsPointsLocalMap := RollingGrid.empty 0 0

namespace SlamState

variable {G : Type}

-- Inline accessors from the canonical header.  The setters generated by
-- `SetMacro(name,type)` expand to `void SetName(type _arg) { name = _arg; }`
-- and assign exactly their named member; the getters generated by
-- `GetMacro(name,type)` return the member.  `SetNbThreads` is written out
-- by hand in the header and also forwards to the keypoint extractor:
-- `void SetNbThreads(int n) { this->NbThreads = n;
--                             this->KeyPointsExtractor->SetNbThreads(n); }`

/-- Setter `Slam::SetNbThreads` (hand-written inline setter). -/
def SetNbThreads (s : SlamState G) (n : ℕ) : SlamState G :=
  { s with nbThreads := n, extractor := { s.extractor with nbThreads := n } }

/-- Getter `Slam::GetNbThreads` (`GetMacro`). -/
def GetNbThreads (s : SlamState G) : ℕ := s.nbThreads

/-- Setter `Slam::SetFastSlam` (`SetMacro`). -/
def SetFastSlam (s : SlamState G) (b : Bool) : SlamState G :=
  { s with fastSlam := b }

/-- Getter `Slam::GetFastSlam` (`GetMacro`). -/
def GetFastSlam (s : SlamState G) : Bool := s.fastSlam

/-- Setter `Slam::SetLoggingTimeout` (`SetMacro`). -/
def SetLoggingTimeout (s : SlamState G) (t : ℚ) : SlamState G :=
  { s with loggingTimeout := t }

/-- Getter `Slam::GetLoggingTimeout` (`GetMacro`). -/
def GetLoggingTimeout (s : SlamState G) : ℚ := s.loggingTimeout

/-- Setter `Slam::SetMaxDistanceForICPMatching` (`SetMacro`). -/
def SetMaxDistanceForICPMatching (s : SlamState G) (d : ℚ) : SlamState G :=
  { s with maxDistanceForICPMatching := d }

/-- Getter `Slam::GetMaxDistanceForICPMatching` (`GetMacro`). -/
def GetMaxDistanceForICPMatching (s : SlamState G) : ℚ :=
  s.maxDistanceForICPMatching

/-- Flatten a 6x6 covariance matrix into the row-major 36-element array
returned at the boundary (`std::array<double, 36>`). -/
def covToArray (m : Fin 6 → Fin 6 → ℚ) : Fin 36 → ℚ :=
  fun k => m ⟨k.val / 6, by omega⟩ ⟨k.val % 6, by omega⟩

/-- Getter `Slam::GetTransformCovariance`: the covariance of the last localization
step, DoF order X, Y, Z, rX, rY, rZ, row-major. -/
def GetTransformCovariance (s : SlamState G) : Fin 36 → ℚ :=
  covToArray s.covariance

/-- Getter `Slam::GetTrajectory`: the computed poses over the logging window. -/
def GetTrajectory (s : SlamState G) : List (Transform G) :=
  s.logTrajectory.map fun e => ⟨e.time, e.pose⟩

/-- Getter `Slam::GetCovariances`: the covariances over the logging window. -/
def GetCovariances (s : SlamState G) : List (Fin 36 → ℚ) :=
  s.logTrajectory.map fun e => covToArray e.cov

/-- Modelled from the spec: `Slam::CheckFrame` (body not in the sources).
The input frame is valid when it is non-empty, its timestamp strictly
advances past the previous processed frame's, and its frame id matches the
expected BASE frame id; otherwise `AddFrame` fails softly. -/
def checkFrame (s : SlamState G) (pc : PointCloud) : Bool :=
  !pc.points.isEmpty &&
    (match s.lastStamp with
     | none => true
     | some t => decide (t < pc.stamp)) &&
    (pc.frameId == s.baseFrameId)

end SlamState

/-- Modelled from the spec: the Ego-Motion stage (`Slam::ComputeEgoMotion`,
body not in the sources).  Given the mode, the poses of the two previous
frames (`tw` is `Tworld_{k-1}`, `pw` is `Tworld_{k-2}`) and the outcome
`icp` of frame-to-frame registration (for the registration modes), it
returns `(Trelative, seed Tworld_k)`:
 - `NONE`: relative motion is identity, estimated pose equals the previous;
 - `MOTION_EXTRAPOLATION`: previous motion is linearly extrapolated from
   the two previous poses;
 - `REGISTRATION` and `MOTION_EXTRAPOLATION_AND_REGISTRATION`: the
   (possibly extrapolation-seeded) ICP result is used. -/
def computeEgoMotion {G : Type} [Group G] (mode : EgoMotionMode)
    (tw pw : G) (icp : G) : G × G :=
  match mode with
  | .NONE => (1, tw)
  | .MOTION_EXTRAPOLATION => (pw⁻¹ * tw, tw * (pw⁻¹ * tw))
  | .REGISTRATION => (icp, tw * icp)
  | .MOTION_EXTRAPOLATION_AND_REGISTRATION => (icp, tw * icp)

/-- Modelled from the spec: appending one frame's entry to the trajectory
log and pruning it to `LoggingTimeout` (`Slam::LogCurrentFrameState`, body
not in the sources).  A timeout of 0 disables logging; a negative timeout
retains everything; a positive timeout `T` drops every entry older than
`T` seconds before the new entry. -/
def logPush {G : Type} (timeout : ℚ) (log : List (LogEntry G))
    (e : LogEntry G) : List (LogEntry G) :=
  if timeout = 0 then log
  else if timeout < 0 then log ++ [e]
  else (log ++ [e]).filter fun x => decide (e.time - x.time ≤ timeout)

/-- Modelled from the spec: `Slam::AddFrame`, the end-to-end pipeline for
one sweep (body not in the sources).  The frame is validated; on failure the
call returns without advancing state.  On success the Ego-Motion stage seeds
the pose, the Localization stage refines it and reports its covariance, the
maps are recentered and fed with the new world keypoints (when `UpdateMap`
is set), and the pose, covariance and timestamp are logged. -/
def addFrame {G : Type} [Group G] (s : SlamState G) (pc : PointCloud)
    (o : FrameOutcome G) : SlamState G :=
  if s.checkFrame pc then
    let seed := (computeEgoMotion s.egoMotion s.tworld s.previousTworld
      o.icpTrelative).2
    let newTworld := o.localize seed
    { s with
      nbrFrameProcessed := s.nbrFrameProcessed + 1
      lastStamp := some pc.stamp
      previousTworld := s.tworld
      tworld := newTworld
      trelative := s.tworld⁻¹ * newTworld
      covariance := o.cov
      logTrajectory := logPush s.loggingTimeout s.logTrajectory
        ⟨pc.stamp, newTworld, o.cov⟩
      edgesPointsLocalMap :=
        if s.updateMap then
          (s.edgesPointsLocalMap.rollToCenter o.newCenter).insertPoints
            o.edgePts
        else s.edgesPointsLocalMap
      planarPointsLocalMap :=
        if s.updateMap then
          (s.planarPointsLocalMap.rollToCenter o.newCenter).insertPoints
            o.planarPts
        else s.planarPointsLocalMap
      blobsPointsLocalMap :=
        if s.updateMap then
          (s.blobsPointsLocalMap.rollToCenter o.newCenter).insertPoints
            o.blobPts
        else s.blobsPointsLocalMap }
  else s

/-- Process a sequence of frames in order, each with its solver outcome. -/
def runFrames {G : Type} [Group G] (s : SlamState G) :
    List (PointCloud × FrameOutcome G) → SlamState G
  | [] => s
  | (pc, o) :: rest => runFrames (addFrame s pc o) rest

/-- Modelled from the spec: `Slam::Reset(resetLog)` (body not in the
sources).  All processing state is dropped (poses to identity, counters to
zero, maps emptied, covariance cleared); configuration parameters persist;
the log is cleared only when `resetLog` is set. -/
def resetSlam {G : Type} [Group G] (s : SlamState G) (resetLog : Bool) :
    SlamState G :=
  { s with
    nbrFrameProcessed := 0
    lastStamp := none
    trelative := 1
    tworld := 1
    previousTworld := 1
    covariance := fun _ _ => 0
    logTrajectory := if resetLog then [] else s.logTrajectory
    edgesPointsLocalMap := RollingGrid.empty
      s.edgesPointsLocalMap.voxelGridSize
      s.edgesPointsLocalMap.voxelGridResolution
    planarPointsLocalMap := RollingGrid.empty
      s.planarPointsLocalMap.voxelGridSize
      s.planarPointsLocalMap.voxelGridResolution
    blobsPointsLocalMap := RollingGrid.empty
      s.blobsPointsLocalMap.voxelGridSize
      s.blobsPointsLocalMap.voxelGridResolution }

/-- A concrete empty input cloud (timestamp 0, frame id matching the fresh
state's BASE frame id), used to exercise the invalid-input path. -/
def emptyCloud : PointCloud := ⟨0, "", []⟩

/-- A concrete single-point input cloud with timestamp 1, used to exercise
the valid-input path. -/
def oneCloud : PointCloud := ⟨1, "", [⟨1, 0, 0, 0, 0, 0⟩]⟩

/-- A trivial solver outcome over the pose group `Multiplicative ℤ`:
identity relative motion, identity localization refinement, zero
covariance, no keypoints. -/
def trivialOutcome : FrameOutcome (Multiplicative ℤ) :=
  ⟨1, fun g => g, fun _ _ => 0, (0, 0, 0), [], [], []⟩

/-- A concrete state whose ego-motion mode is `NONE` and which has already
processed two frames. -/
def witnessSlamNone : SlamState (Multiplicative ℤ) :=
  { initSlam (Multiplicative ℤ) with
    egoMotion := .NONE, nbrFrameProcessed := 2 }

/-- A concrete state whose ego-motion mode is `MOTION_EXTRAPOLATION` (the
default) and which has already processed two frames. -/
def witnessSlamExtrapolation : SlamState (Multiplicative ℤ) :=
  { initSlam (Multiplicative ℤ) with nbrFrameProcessed := 2 }

/-- Well-formedness of a rolling grid: every stored point lies inside the
window, i.e. within Chebyshev distance `N*r/2` of the current center. -/
def GridWF (g : RollingGrid) : Prop :=
  ∀ p ∈ g.gridPoints, cheb p g.gridCenter ≤ g.halfExtent

/-
  Theorems.
-/

theorem mem_insertByDist {q a p : Point3} {l : List Point3}
    (h : p ∈ RollingGrid.insertByDist q a l) : p = a ∨ p ∈ l := by
  induction l with
  | nil => simpa [RollingGrid.insertByDist] using h
  | cons x xs ih =>
    simp only [RollingGrid.insertByDist] at h
    split at h
    · simpa using h
    · rcases List.mem_cons.mp h with h1 | h2
      · exact Or.inr (h1 ▸ List.mem_cons_self x xs)
      · rcases ih h2 with h3 | h4
        · exact Or.inl h3
        · exact Or.inr (List.mem_cons_of_mem x h4)

theorem mem_sortByDist {q p : Point3} {l : List Point3}
    (h : p ∈ RollingGrid.sortByDist q l) : p ∈ l := by
  induction l with
  | nil => simp [RollingGrid.sortByDist] at h
  | cons x xs ih =>
    rcases mem_insertByDist (show p ∈ _ from by
        simpa [RollingGrid.sortByDist] using h) with h1 | h2
    · exact h1 ▸ List.mem_cons_self x xs
    · exact List.mem_cons_of_mem x (ih h2)

theorem applyGridOp_voxelGridSize (g : RollingGrid) (op : GridOp) :
    (applyGridOp g op).voxelGridSize = g.voxelGridSize := by
  cases op <;> rfl

theorem applyGridOp_voxelGridResolution (g : RollingGrid) (op : GridOp) :
    (applyGridOp g op).voxelGridResolution = g.voxelGridResolution := by
  cases op <;> rfl

theorem applyGridOp_wf (g : RollingGrid) (op : GridOp) (h : GridWF g) :
    GridWF (applyGridOp g op) := by
  cases op with
  | insert pts =>
    intro p hp
    rcases List.mem_append.mp hp with h1 | h2
    · exact h p h1
    · have h3 := (List.mem_filter.mp h2).2
      simpa [RollingGrid.inWindow] using h3
  | recenter c =>
    intro p hp
    have h3 := (List.mem_filter.mp hp).2
    simpa using h3
  | clear =>
    intro p hp
    simp [RollingGrid.clearGrid, applyGridOp] at hp

theorem applyGridOps_wf (g : RollingGrid) (ops : List GridOp) (h : GridWF g) :
    GridWF (applyGridOps g ops) := by
  induction ops generalizing g with
  | nil => exact h
  | cons op rest ih => exact ih _ (applyGridOp_wf _ _ h)

theorem applyGridOps_voxelGridSize (g : RollingGrid) (ops : List GridOp) :
    (applyGridOps g ops).voxelGridSize = g.voxelGridSize := by
  induction ops generalizing g with
  | nil => rfl
  | cons op rest ih => exact (ih _).trans (applyGridOp_voxelGridSize g op)

theorem applyGridOps_voxelGridResolution (g : RollingGrid) (ops : List GridOp) :
    (applyGridOps g ops).voxelGridResolution = g.voxelGridResolution := by
  induction ops generalizing g with
  | nil => rfl
  | cons op rest ih => exact (ih _).trans (applyGridOp_voxelGridResolution g op)

theorem gridWF_empty (n : ℕ) (r : ℚ) : GridWF (RollingGrid.empty n r) := by
  intro p hp
  simp [RollingGrid.empty] at hp

/-- C8: for every point returned by any `RollingGrid` query (`radius_query`
or `knn`) on a grid built by any sequence of insertions, recenterings and
clears, the Chebyshev distance from the point to the grid's current center
is at most `N*r/2`, where `N` is `VoxelGridSize` and `r` is
`VoxelGridResolution` (occupied extent at most `N*r` per axis). -/
theorem rollingGrid_queries_within_window (n : ℕ) (r : ℚ) (ops : List GridOp)
    (q : Point3) (rmax : ℚ) (k : ℕ) (p : Point3) :
    (p ∈ (applyGridOps (RollingGrid.empty n r) ops).radiusQuery q rmax →
      cheb p (applyGridOps (RollingGrid.empty n r) ops).gridCenter ≤
        n * r / 2) ∧
    (p ∈ (applyGridOps (RollingGrid.empty n r) ops).knn q k →
      cheb p (applyGridOps (RollingGrid.empty n r) ops).gridCenter ≤
        n * r / 2) := by
  have hwf := applyGridOps_wf (RollingGrid.empty n r) ops (gridWF_empty n r)
  have hhe : (applyGridOps (RollingGrid.empty n r) ops).halfExtent =
      n * r / 2 := by
    unfold RollingGrid.halfExtent
    rw [applyGridOps_voxelGridSize, applyGridOps_voxelGridResolution]
    rfl
  constructor
  · intro hp
    exact hhe ▸ hwf p (List.mem_filter.mp hp).1
  · intro hp
    exact hhe ▸ hwf p (mem_sortByDist (List.take_subset k _ hp))

/-- Witness for C8 on a concrete grid: `N = 2`, `r = 1`, one inserted point
at the origin, queried by both `radius_query` and `knn`. -/
theorem rollingGrid_queries_within_window_witness :
    (((0 : ℚ), (0 : ℚ), (0 : ℚ)) ∈
      (applyGridOps (RollingGrid.empty 2 1)
        [GridOp.insert [((0 : ℚ), (0 : ℚ), (0 : ℚ))]]).radiusQuery
        ((0 : ℚ), (0 : ℚ), (0 : ℚ)) 1) ∧
    (((0 : ℚ), (0 : ℚ), (0 : ℚ)) ∈
      (applyGridOps (RollingGrid.empty 2 1)
        [GridOp.insert [((0 : ℚ), (0 : ℚ), (0 : ℚ))]]).knn
        ((0 : ℚ), (0 : ℚ), (0 : ℚ)) 1) ∧
    cheb ((0 : ℚ), (0 : ℚ), (0 : ℚ))
      (applyGridOps (RollingGrid.empty 2 1)
        [GridOp.insert [((0 : ℚ), (0 : ℚ), (0 : ℚ))]]).gridCenter ≤
      2 * 1 / 2 :=
  ⟨by simp [applyGridOps, applyGridOp, RollingGrid.insertPoints,
      RollingGrid.inWindow, RollingGrid.empty, RollingGrid.halfExtent,
      RollingGrid.radiusQuery, cheb, sqDist],
    by simp [applyGridOps, applyGridOp, RollingGrid.insertPoints,
      RollingGrid.inWindow, RollingGrid.empty, RollingGrid.halfExtent,
      RollingGrid.knn, RollingGrid.sortByDist, RollingGrid.insertByDist,
      cheb, sqDist],
    (rollingGrid_queries_within_window 2 1
      [GridOp.insert [((0 : ℚ), (0 : ℚ), (0 : ℚ))]]
      ((0 : ℚ), (0 : ℚ), (0 : ℚ)) 1 1 ((0 : ℚ), (0 : ℚ), (0 : ℚ))).1
      (by simp [applyGridOps, applyGridOp, RollingGrid.insertPoints,
        RollingGrid.inWindow, RollingGrid.empty, RollingGrid.halfExtent,
        RollingGrid.radiusQuery, cheb, sqDist])⟩

theorem histogram_sum_eq_length (l : List MatchingResult) :
    (allMatchingResults.map (matchRejectionHistogram l)).sum = l.length := by
  induction l with
  | nil => rfl
  | cons a tl ih =>
    simp only [allMatchingResults, matchRejectionHistogram, List.map_cons,
      List.map_nil, List.sum_cons, List.sum_nil, List.count_cons,
      List.length_cons] at ih ⊢
    cases a <;> simp <;> omega

/-- C7: the keypoint match outcomes are exactly the seven tagged causes
Success, NotEnoughNeighbors, NeighborsTooFar, BadPcaStructure,
InvalidNumerical, MseTooLarge, Unknown (the enum's seven distinct values,
numbered 0 to 6, `nRejectionCauses = 7`), and a per-class rejection
histogram over any vector of per-keypoint outcomes has bucket counts
summing to the number of keypoints attempted. -/
theorem matchingResult_causes_and_histogram :
    allMatchingResults.Nodup ∧
    allMatchingResults.length = 7 ∧
    (∀ m : MatchingResult, m ∈ allMatchingResults) ∧
    (∀ outcomes : List MatchingResult,
      (allMatchingResults.map (matchRejectionHistogram outcomes)).sum =
        outcomes.length) := by
  refine ⟨by decide, rfl, fun m => by cases m <;> decide,
    histogram_sum_eq_length⟩

/-- Witness for C7: the histogram over a single successful match outcome
sums to one. -/
theorem matchingResult_causes_and_histogram_witness :
    (allMatchingResults.map
      (matchRejectionHistogram [MatchingResult.SUCCESS])).sum =
      [MatchingResult.SUCCESS].length :=
  matchingResult_causes_and_histogram.2.2.2 [MatchingResult.SUCCESS]

/-- C3: the canonical ("Localization") header's default
`MaxDistanceForICPMatching` is 5.0 meters, the older divergent ("Mapping")
header's is 20.0 meters, and a freshly constructed `Slam` instance from the
canonical header returns 5.0 from `GetMaxDistanceForICPMatching`. -/
theorem maxDistanceForICPMatching_defaults :
    defaultMaxDistanceForICPMatching = 5 ∧
    mappingHeaderMaxDistanceForICPMatching = 20 ∧
    ∀ (G : Type) [Group G],
      (initSlam G).GetMaxDistanceForICPMatching = 5 :=
  ⟨rfl, rfl, fun _ _ => rfl⟩

/-- Witness for C3 at a concrete pose group. -/
theorem maxDistanceForICPMatching_defaults_witness :
    (initSlam (Multiplicative ℤ)).GetMaxDistanceForICPMatching = 5 :=
  maxDistanceForICPMatching_defaults.2.2 (Multiplicative ℤ)

/-- C9: `Reset(resetLog=false)` is idempotent: calling it twice leaves the
`Slam` object in the same state as calling it once. -/
theorem reset_keepLog_idempotent {G : Type} [Group G] (s : SlamState G) :
    resetSlam (resetSlam s false) false = resetSlam s false :=
  rfl

/-- Witness for C9 at a concrete state. -/
theorem reset_keepLog_idempotent_witness :
    resetSlam (resetSlam (initSlam (Multiplicative ℤ)) false) false =
      resetSlam (initSlam (Multiplicative ℤ)) false :=
  reset_keepLog_idempotent (initSlam (Multiplicative ℤ))

/-- C10: `SetNbThreads(n)` updates both the `Slam`'s `NbThreads` member and
the keypoint extractor's thread count, while the `SetMacro`-generated
setters (`SetFastSlam`, `SetLoggingTimeout`, `SetMaxDistanceForICPMatching`)
assign only their named member and leave every other member unchanged; in
each case the corresponding getter returns exactly the value just set. -/
theorem setters_assign_named_field {G : Type} [Group G] (s : SlamState G)
    (n : ℕ) (b : Bool) (t d : ℚ) :
    ((s.SetNbThreads n).nbThreads = n ∧
     (s.SetNbThreads n).extractor.nbThreads = n ∧
     (s.SetNbThreads n).GetNbThreads = n ∧
     (s.SetNbThreads n).verbosity = s.verbosity ∧
     (s.SetNbThreads n).fastSlam = s.fastSlam ∧
     (s.SetNbThreads n).egoMotion = s.egoMotion ∧
     (s.SetNbThreads n).undistortion = s.undistortion ∧
     (s.SetNbThreads n).loggingTimeout = s.loggingTimeout ∧
     (s.SetNbThreads n).loggingStorage = s.loggingStorage ∧
     (s.SetNbThreads n).updateMap = s.updateMap ∧
     (s.SetNbThreads n).maxDistanceForICPMatching =
       s.maxDistanceForICPMatching ∧
     (s.SetNbThreads n).worldFrameId = s.worldFrameId ∧
     (s.SetNbThreads n).baseFrameId = s.baseFrameId ∧
     (s.SetNbThreads n).nbrFrameProcessed = s.nbrFrameProcessed ∧
     (s.SetNbThreads n).lastStamp = s.lastStamp ∧
     (s.SetNbThreads n).trelative = s.trelative ∧
     (s.SetNbThreads n).tworld = s.tworld ∧
     (s.SetNbThreads n).previousTworld = s.previousTworld ∧
     (s.SetNbThreads n).covariance = s.covariance ∧
     (s.SetNbThreads n).logTrajectory = s.logTrajectory ∧
     (s.SetNbThreads n).edgesPointsLocalMap = s.edgesPointsLocalMap ∧
     (s.SetNbThreads n).planarPointsLocalMap = s.planarPointsLocalMap ∧
     (s.SetNbThreads n).blobsPointsLocalMap = s.blobsPointsLocalMap) ∧
    ((s.SetFastSlam b).fastSlam = b ∧
     (s.SetFastSlam b).GetFastSlam = b ∧
     (s.SetFastSlam b).nbThreads = s.nbThreads ∧
     (s.SetFastSlam b).extractor = s.extractor ∧
     (s.SetFastSlam b).verbosity = s.verbosity ∧
     (s.SetFastSlam b).egoMotion = s.egoMotion ∧
     (s.SetFastSlam b).undistortion = s.undistortion ∧
     (s.SetFastSlam b).loggingTimeout = s.loggingTimeout ∧
     (s.SetFastSlam b).loggingStorage = s.loggingStorage ∧
     (s.SetFastSlam b).updateMap = s.updateMap ∧
     (s.SetFastSlam b).maxDistanceForICPMatching =
       s.maxDistanceForICPMatching ∧
     (s.SetFastSlam b).worldFrameId = s.worldFrameId ∧
     (s.SetFastSlam b).baseFrameId = s.baseFrameId ∧
     (s.SetFastSlam b).nbrFrameProcessed = s.nbrFrameProcessed ∧
     (s.SetFastSlam b).lastStamp = s.lastStamp ∧
     (s.SetFastSlam b).trelative = s.trelative ∧
     (s.SetFastSlam b).tworld = s.tworld ∧
     (s.SetFastSlam b).previousTworld = s.previousTworld ∧
     (s.SetFastSlam b).covariance = s.covariance ∧
     (s.SetFastSlam b).logTrajectory = s.logTrajectory ∧
     (s.SetFastSlam b).edgesPointsLocalMap = s.edgesPointsLocalMap ∧
     (s.SetFastSlam b).planarPointsLocalMap = s.planarPointsLocalMap ∧
     (s.SetFastSlam b).blobsPointsLocalMap = s.blobsPointsLocalMap) ∧
    ((s.SetLoggingTimeout t).loggingTimeout = t ∧
     (s.SetLoggingTimeout t).GetLoggingTimeout = t ∧
     (s.SetLoggingTimeout t).nbThreads = s.nbThreads ∧
     (s.SetLoggingTimeout t).extractor = s.extractor ∧
     (s.SetLoggingTimeout t).verbosity = s.verbosity ∧
     (s.SetLoggingTimeout t).fastSlam = s.fastSlam ∧
     (s.SetLoggingTimeout t).egoMotion = s.egoMotion ∧
     (s.SetLoggingTimeout t).undistortion = s.undistortion ∧
     (s.SetLoggingTimeout t).loggingStorage = s.loggingStorage ∧
     (s.SetLoggingTimeout t).updateMap = s.updateMap ∧
     (s.SetLoggingTimeout t).maxDistanceForICPMatching =
       s.maxDistanceForICPMatching ∧
     (s.SetLoggingTimeout t).worldFrameId = s.worldFrameId ∧
     (s.SetLoggingTimeout t).baseFrameId = s.baseFrameId ∧
     (s.SetLoggingTimeout t).nbrFrameProcessed = s.nbrFrameProcessed ∧
     (s.SetLoggingTimeout t).lastStamp = s.lastStamp ∧
     (s.SetLoggingTimeout t).trelative = s.trelative ∧
     (s.SetLoggingTimeout t).tworld = s.tworld ∧
     (s.SetLoggingTimeout t).previousTworld = s.previousTworld ∧
     (s.SetLoggingTimeout t).covariance = s.covariance ∧
     (s.SetLoggingTimeout t).logTrajectory = s.logTrajectory ∧
     (s.SetLoggingTimeout t).edgesPointsLocalMap = s.edgesPointsLocalMap ∧
     (s.SetLoggingTimeout t).planarPointsLocalMap =
       s.planarPointsLocalMap ∧
     (s.SetLoggingTimeout t).blobsPointsLocalMap = s.blobsPointsLocalMap) ∧
    ((s.SetMaxDistanceForICPMatching d).maxDistanceForICPMatching = d ∧
     (s.SetMaxDistanceForICPMatching d).GetMaxDistanceForICPMatching = d ∧
     (s.SetMaxDistanceForICPMatching d).nbThreads = s.nbThreads ∧
     (s.SetMaxDistanceForICPMatching d).extractor = s.extractor ∧
     (s.SetMaxDistanceForICPMatching d).verbosity = s.verbosity ∧
     (s.SetMaxDistanceForICPMatching d).fastSlam = s.fastSlam ∧
     (s.SetMaxDistanceForICPMatching d).egoMotion = s.egoMotion ∧
     (s.SetMaxDistanceForICPMatching d).undistortion = s.undistortion ∧
     (s.SetMaxDistanceForICPMatching d).loggingTimeout =
       s.loggingTimeout ∧
     (s.SetMaxDistanceForICPMatching d).loggingStorage =
       s.loggingStorage ∧
     (s.SetMaxDistanceForICPMatching d).updateMap = s.updateMap ∧
     (s.SetMaxDistanceForICPMatching d).worldFrameId = s.worldFrameId ∧
     (s.SetMaxDistanceForICPMatching d).baseFrameId = s.baseFrameId ∧
     (s.SetMaxDistanceForICPMatching d).nbrFrameProcessed =
       s.nbrFrameProcessed ∧
     (s.SetMaxDistanceForICPMatching d).lastStamp = s.lastStamp ∧
     (s.SetMaxDistanceForICPMatching d).trelative = s.trelative ∧
     (s.SetMaxDistanceForICPMatching d).tworld = s.tworld ∧
     (s.SetMaxDistanceForICPMatching d).previousTworld =
       s.previousTworld ∧
     (s.SetMaxDistanceForICPMatching d).covariance = s.covariance ∧
     (s.SetMaxDistanceForICPMatching d).logTrajectory = s.logTrajectory ∧
     (s.SetMaxDistanceForICPMatching d).edgesPointsLocalMap =
       s.edgesPointsLocalMap ∧
     (s.SetMaxDistanceForICPMatching d).planarPointsLocalMap =
       s.planarPointsLocalMap ∧
     (s.SetMaxDistanceForICPMatching d).blobsPointsLocalMap =
       s.blobsPointsLocalMap) := by
  repeat' apply And.intro
  all_goals rfl

/-- Witness for C10: the getter observes exactly the value set on a fresh
instance. -/
theorem setters_assign_named_field_witness :
    ((initSlam (Multiplicative ℤ)).SetFastSlam false).GetFastSlam = false :=
  ((setters_assign_named_field (initSlam (Multiplicative ℤ))
    4 false 2 3).2.1).2.1

theorem covToArray_entry (m : Fin 6 → Fin 6 → ℚ) (i j : Fin 6) :
    SlamState.covToArray m
      ⟨6 * i.val + j.val, by have h1 := i.isLt; have h2 := j.isLt; omega⟩ =
      m i j := by
  have h1 := i.isLt
  have h2 := j.isLt
  have e1 : (6 * i.val + j.val) / 6 = i.val := by omega
  have e2 : (6 * i.val + j.val) % 6 = j.val := by omega
  unfold SlamState.covToArray
  simp only [e1, e2, Fin.eta]

/-- C1: after any processed frame, `GetTransformCovariance` returns the 6x6
localization covariance as a row-major 36-element array in DoF order
(X, Y, Z, rX, rY, rZ): entry `6*i + j` is the covariance reported by the
localization solver between the `i`-th and `j`-th DoF in that order. -/
theorem getTransformCovariance_rowMajor {G : Type} [Group G]
    (s : SlamState G) (pc : PointCloud) (o : FrameOutcome G)
    (h : s.checkFrame pc = true) (i j : Fin 6) :
    (addFrame s pc o).GetTransformCovariance
      ⟨6 * i.val + j.val, by have h1 := i.isLt; have h2 := j.isLt; omega⟩ =
      o.cov i j := by
  unfold addFrame
  rw [if_pos h]
  exact covToArray_entry o.cov i j

/-- Witness for C1: one valid frame processed from a fresh instance. -/
theorem getTransformCovariance_rowMajor_witness :
    (initSlam (Multiplicative ℤ)).checkFrame oneCloud = true ∧
    (addFrame (initSlam (Multiplicative ℤ)) oneCloud
        trivialOutcome).GetTransformCovariance ⟨6 * 0 + 1, by omega⟩ =
      trivialOutcome.cov 0 1 :=
  ⟨by decide,
    getTransformCovariance_rowMajor (initSlam (Multiplicative ℤ)) oneCloud
      trivialOutcome (by decide) 0 1⟩

theorem addFrame_of_checkFrame_false {G : Type} [Group G]
    {s : SlamState G} {pc : PointCloud} (o : FrameOutcome G)
    (hc : s.checkFrame pc = false) : addFrame s pc o = s := by
  unfold addFrame
  rw [if_neg (by simp [hc])]

/-- C2: on an input cloud that is empty, has a duplicate timestamp, or has
a mismatched frame id, `AddFrame` returns without advancing state: no
trajectory entry is emitted, the maps and `Tworld` are unchanged, and
`NbrFrameProcessed` is not incremented. -/
theorem addFrame_invalid_input_no_advance {G : Type} [Group G]
    (s : SlamState G) (pc : PointCloud) (o : FrameOutcome G)
    (h : pc.points = [] ∨ (∃ t, s.lastStamp = some t ∧ pc.stamp = t) ∨
      pc.frameId ≠ s.baseFrameId) :
    addFrame s pc o = s ∧
    (addFrame s pc o).logTrajectory = s.logTrajectory ∧
    (addFrame s pc o).edgesPointsLocalMap = s.edgesPointsLocalMap ∧
    (addFrame s pc o).planarPointsLocalMap = s.planarPointsLocalMap ∧
    (addFrame s pc o).blobsPointsLocalMap = s.blobsPointsLocalMap ∧
    (addFrame s pc o).tworld = s.tworld ∧
    (addFrame s pc o).nbrFrameProcessed = s.nbrFrameProcessed := by
  have hc : s.checkFrame pc = false := by
    rcases h with he | ⟨t, hs, hd⟩ | hf
    · simp [SlamState.checkFrame, he]
    · simp [SlamState.checkFrame, hs, hd]
    · simp [SlamState.checkFrame, hf]
  have he := addFrame_of_checkFrame_false o hc
  exact ⟨he, by rw [he], by rw [he], by rw [he], by rw [he], by rw [he],
    by rw [he]⟩

/-- Witness for C2: an empty input cloud on a fresh instance. -/
theorem addFrame_invalid_input_no_advance_witness :
    emptyCloud.points = [] ∧
    addFrame (initSlam (Multiplicative ℤ)) emptyCloud trivialOutcome =
      initSlam (Multiplicative ℤ) :=
  ⟨rfl,
    (addFrame_invalid_input_no_advance (initSlam (Multiplicative ℤ))
      emptyCloud trivialOutcome (Or.inl rfl)).1⟩

/-- C6: under `EgoMotionMode::NONE` the ego-motion stage yields
`Trelative = identity` and seed `Tworld_k = Tworld_{k-1}`; under
`MOTION_EXTRAPOLATION` it yields
`Trelative = Tworld_{k-2}⁻¹ * Tworld_{k-1}` (linear constant-velocity
extrapolation from the two previous poses), for every frame with at least
two predecessors. -/
theorem egoMotion_none_and_extrapolation {G : Type} [Group G]
    (s : SlamState G) (icp : G) (_hk : 2 ≤ s.nbrFrameProcessed) :
    (s.egoMotion = .NONE →
      computeEgoMotion s.egoMotion s.tworld s.previousTworld icp =
        (1, s.tworld)) ∧
    (s.egoMotion = .MOTION_EXTRAPOLATION →
      computeEgoMotion s.egoMotion s.tworld s.previousTworld icp =
        (s.previousTworld⁻¹ * s.tworld,
          s.tworld * (s.previousTworld⁻¹ * s.tworld))) :=
  ⟨fun hm => by rw [hm]; rfl, fun hm => by rw [hm]; rfl⟩

/-- Witness for C6: concrete states with two processed frames, one in mode
`NONE` and one in mode `MOTION_EXTRAPOLATION`. -/
theorem egoMotion_none_and_extrapolation_witness :
    computeEgoMotion witnessSlamNone.egoMotion witnessSlamNone.tworld
        witnessSlamNone.previousTworld 1 = (1, witnessSlamNone.tworld) ∧
    computeEgoMotion witnessSlamExtrapolation.egoMotion
        witnessSlamExtrapolation.tworld
        witnessSlamExtrapolation.previousTworld 1 =
      (witnessSlamExtrapolation.previousTworld⁻¹ *
          witnessSlamExtrapolation.tworld,
        witnessSlamExtrapolation.tworld *
          (witnessSlamExtrapolation.previousTworld⁻¹ *
            witnessSlamExtrapolation.tworld)) :=
  ⟨(egoMotion_none_and_extrapolation witnessSlamNone 1
      (Nat.le_refl 2)).1 rfl,
    (egoMotion_none_and_extrapolation witnessSlamExtrapolation 1
      (Nat.le_refl 2)).2 rfl⟩

theorem checkFrame_false_of_not_true {G : Type} {s : SlamState G}
    {pc : PointCloud} (hc : ¬ s.checkFrame pc = true) :
    s.checkFrame pc = false := by
  cases h : s.checkFrame pc
  · rfl
  · exact absurd h hc

theorem checkFrame_stamp_lt {G : Type} {s : SlamState G} {pc : PointCloud}
    (hc : s.checkFrame pc = true) {t : ℚ} (hl : s.lastStamp = some t) :
    t < pc.stamp := by
  unfold SlamState.checkFrame at hc
  rw [hl] at hc
  simp only [Bool.and_eq_true, decide_eq_true_eq] at hc
  exact hc.1.2

theorem addFrame_lastStamp_of_true {G : Type} [Group G] {s : SlamState G}
    {pc : PointCloud} (o : FrameOutcome G) (hc : s.checkFrame pc = true) :
    (addFrame s pc o).lastStamp = some pc.stamp := by
  unfold addFrame
  rw [if_pos hc]

theorem addFrame_logTrajectory_of_true {G : Type} [Group G]
    {s : SlamState G} {pc : PointCloud} (o : FrameOutcome G)
    (hc : s.checkFrame pc = true) :
    ∃ e : LogEntry G, e.time = pc.stamp ∧
      (addFrame s pc o).logTrajectory =
        logPush s.loggingTimeout s.logTrajectory e := by
  unfold addFrame
  rw [if_pos hc]
  exact ⟨_, rfl, rfl⟩

theorem addFrame_nbrFrameProcessed_of_true {G : Type} [Group G]
    {s : SlamState G} {pc : PointCloud} (o : FrameOutcome G)
    (hc : s.checkFrame pc = true) :
    (addFrame s pc o).nbrFrameProcessed = s.nbrFrameProcessed + 1 := by
  unfold addFrame
  rw [if_pos hc]

theorem addFrame_loggingTimeout {G : Type} [Group G] (s : SlamState G)
    (pc : PointCloud) (o : FrameOutcome G) :
    (addFrame s pc o).loggingTimeout = s.loggingTimeout := by
  unfold addFrame
  split <;> rfl

theorem mem_of_mem_logPush {G : Type} {T : ℚ} {log : List (LogEntry G)}
    {e x : LogEntry G} (h : x ∈ logPush T log e) : x ∈ log ∨ x = e := by
  unfold logPush at h
  split at h
  · exact Or.inl h
  · split at h
    · rcases List.mem_append.mp h with h1 | h2
      · exact Or.inl h1
      · exact Or.inr (List.mem_singleton.mp h2)
    · rcases List.mem_append.mp (List.mem_filter.mp h).1 with h1 | h2
      · exact Or.inl h1
      · exact Or.inr (List.mem_singleton.mp h2)

theorem logPush_pairwise {G : Type} {T : ℚ} {log : List (LogEntry G)}
    {e : LogEntry G}
    (hp : log.Pairwise fun a b => a.time < b.time)
    (hb : ∀ x ∈ log, x.time < e.time) :
    (logPush T log e).Pairwise fun a b => a.time < b.time := by
  have happ : (log ++ [e]).Pairwise fun a b => a.time < b.time :=
    List.pairwise_append.mpr ⟨hp, List.pairwise_singleton _ _,
      fun a ha b hb2 => (List.mem_singleton.mp hb2) ▸ hb a ha⟩
  unfold logPush
  split
  · exact hp
  · split
    · exact happ
    · exact happ.sublist (List.filter_sublist _)

theorem addFrame_traj_inv {G : Type} [Group G] {s : SlamState G}
    (pc : PointCloud) (o : FrameOutcome G)
    (h1 : s.logTrajectory.Pairwise fun a b => a.time < b.time)
    (h2 : ∀ x ∈ s.logTrajectory, ∀ t, s.lastStamp = some t → x.time ≤ t)
    (h3 : s.lastStamp = none → s.logTrajectory = []) :
    ((addFrame s pc o).logTrajectory.Pairwise fun a b =>
      a.time < b.time) ∧
    (∀ x ∈ (addFrame s pc o).logTrajectory, ∀ t,
      (addFrame s pc o).lastStamp = some t → x.time ≤ t) ∧
    ((addFrame s pc o).lastStamp = none →
      (addFrame s pc o).logTrajectory = []) := by
  by_cases hc : s.checkFrame pc = true
  · have hblt : ∀ x ∈ s.logTrajectory, x.time < pc.stamp := by
      intro x hx
      cases hls : s.lastStamp with
      | none => rw [h3 hls] at hx; exact absurd hx (List.not_mem_nil x)
      | some t =>
        exact lt_of_le_of_lt (h2 x hx t hls) (checkFrame_stamp_lt hc hls)
    obtain ⟨e, het, heq⟩ := addFrame_logTrajectory_of_true o hc
    have hls2 := addFrame_lastStamp_of_true o hc
    refine ⟨?_, ?_, ?_⟩
    · rw [heq]
      exact logPush_pairwise h1 (fun x hx => het ▸ hblt x hx)
    · intro x hx t ht
      rw [hls2] at ht
      have ht2 : pc.stamp = t := Option.some.inj ht
      rw [heq] at hx
      rcases mem_of_mem_logPush hx with hxl | hxe
      · exact le_of_lt (ht2 ▸ hblt x hxl)
      · rw [hxe, het, ht2]
    · intro hn
      rw [hls2] at hn
      exact absurd hn (Option.some_ne_none _)
  · rw [addFrame_of_checkFrame_false o (checkFrame_false_of_not_true hc)]
    exact ⟨h1, h2, h3⟩

theorem runFrames_traj_inv {G : Type} [Group G]
    (frames : List (PointCloud × FrameOutcome G)) {s : SlamState G}
    (h1 : s.logTrajectory.Pairwise fun a b => a.time < b.time)
    (h2 : ∀ x ∈ s.logTrajectory, ∀ t, s.lastStamp = some t → x.time ≤ t)
    (h3 : s.lastStamp = none → s.logTrajectory = []) :
    ((runFrames s frames).logTrajectory.Pairwise fun a b =>
      a.time < b.time) ∧
    (∀ x ∈ (runFrames s frames).logTrajectory, ∀ t,
      (runFrames s frames).lastStamp = some t → x.time ≤ t) ∧
    ((runFrames s frames).lastStamp = none →
      (runFrames s frames).logTrajectory = []) := by
  induction frames generalizing s with
  | nil => exact ⟨h1, h2, h3⟩
  | cons f rest ih =>
    obtain ⟨k1, k2, k3⟩ := addFrame_traj_inv f.1 f.2 h1 h2 h3
    exact ih k1 k2 k3

/-- C4: the timestamps of the trajectory entries produced by successive
processed sweeps are strictly increasing: for any run from a fresh
instance (with any configured `LoggingTimeout`), the sequence of
`Transform`s returned by `GetTrajectory` is strictly increasing in
timestamp. -/
theorem trajectory_timestamps_strictly_increasing (G : Type) [Group G]
    (T : ℚ) (frames : List (PointCloud × FrameOutcome G)) :
    (((runFrames ((initSlam G).SetLoggingTimeout T)
      frames).GetTrajectory).map Transform.time).Pairwise (· < ·) := by
  have h := runFrames_traj_inv frames
    (s := (initSlam G).SetLoggingTimeout T)
    (List.Pairwise.nil) (fun x hx => absurd hx (List.not_mem_nil x))
    (fun _ => rfl)
  unfold SlamState.GetTrajectory
  rw [List.map_map]
  exact h.1.map _ (fun a b hab => hab)

/-- Witness for C4 on a concrete two-frame run. -/
theorem trajectory_timestamps_strictly_increasing_witness :
    (((runFrames ((initSlam (Multiplicative ℤ)).SetLoggingTimeout (-1))
      [(oneCloud, trivialOutcome)]).GetTrajectory).map
        Transform.time).Pairwise (· < ·) :=
  trajectory_timestamps_strictly_increasing (Multiplicative ℤ) (-1)
    [(oneCloud, trivialOutcome)]

theorem runFrames_loggingTimeout {G : Type} [Group G]
    (frames : List (PointCloud × FrameOutcome G)) (s : SlamState G) :
    (runFrames s frames).loggingTimeout = s.loggingTimeout := by
  induction frames generalizing s with
  | nil => rfl
  | cons f rest ih =>
    exact (ih _).trans (addFrame_loggingTimeout s f.1 f.2)

theorem logPush_zero {G : Type} (log : List (LogEntry G)) (e : LogEntry G) :
    logPush 0 log e = log := by
  unfold logPush
  rw [if_pos rfl]

theorem logPush_neg {G : Type} {T : ℚ} (log : List (LogEntry G))
    (e : LogEntry G) (h0 : T < 0) : logPush T log e = log ++ [e] := by
  unfold logPush
  rw [if_neg (ne_of_lt h0), if_pos h0]

theorem logPush_pos {G : Type} {T : ℚ} (log : List (LogEntry G))
    (e : LogEntry G) (h0 : 0 < T) :
    logPush T log e =
      (log ++ [e]).filter fun x => decide (e.time - x.time ≤ T) := by
  unfold logPush
  rw [if_neg (ne_of_gt h0), if_neg (not_lt.mpr (le_of_lt h0))]

theorem logPush_pos_bound {G : Type} {T : ℚ} {log : List (LogEntry G)}
    {e : LogEntry G} (h0 : 0 < T) :
    ∀ t ∈ (logPush T log e).map LogEntry.time, ∀ u,
      ((logPush T log e).map LogEntry.time).getLast? = some u →
        u - t ≤ T := by
  rw [logPush_pos log e h0]
  have hpe : decide (e.time - e.time ≤ T) = true :=
    decide_eq_true (by rw [sub_self]; exact le_of_lt h0)
  have hfe : [e].filter (fun x => decide (e.time - x.time ≤ T)) = [e] := by
    simp only [List.filter, hpe]
  rw [List.filter_append, hfe, List.map_append, List.map_singleton]
  intro t ht u hu
  rw [List.getLast?_concat] at hu
  have hu2 : u = e.time := (Option.some.inj hu).symm
  subst hu2
  rcases List.mem_append.mp ht with h1 | h2
  · obtain ⟨x, hxf, hxt⟩ := List.mem_map.mp h1
    have hx2 := (List.mem_filter.mp hxf).2
    rw [← hxt]
    exact of_decide_eq_true hx2
  · rw [List.mem_singleton.mp h2, sub_self]
    exact le_of_lt h0

theorem addFrame_log_zero {G : Type} [Group G] {s : SlamState G}
    (pc : PointCloud) (o : FrameOutcome G) (hT : s.loggingTimeout = 0)
    (hl : s.logTrajectory = []) : (addFrame s pc o).logTrajectory = [] := by
  by_cases hc : s.checkFrame pc = true
  · obtain ⟨e, _, heq⟩ := addFrame_logTrajectory_of_true o hc
    rw [heq, hT, logPush_zero, hl]
  · rw [addFrame_of_checkFrame_false o (checkFrame_false_of_not_true hc)]
    exact hl

theorem runFrames_log_zero {G : Type} [Group G]
    (frames : List (PointCloud × FrameOutcome G)) {s : SlamState G}
    (hT : s.loggingTimeout = 0) (hl : s.logTrajectory = []) :
    (runFrames s frames).logTrajectory = [] := by
  induction frames generalizing s with
  | nil => exact hl
  | cons f rest ih =>
    exact ih ((addFrame_loggingTimeout s f.1 f.2).trans hT)
      (addFrame_log_zero f.1 f.2 hT hl)

theorem addFrame_len_neg {G : Type} [Group G] {s : SlamState G}
    (pc : PointCloud) (o : FrameOutcome G) (hT : s.loggingTimeout < 0)
    (hlen : s.logTrajectory.length = s.nbrFrameProcessed) :
    (addFrame s pc o).logTrajectory.length =
      (addFrame s pc o).nbrFrameProcessed := by
  by_cases hc : s.checkFrame pc = true
  · obtain ⟨e, _, heq⟩ := addFrame_logTrajectory_of_true o hc
    rw [heq, logPush_neg _ _ hT, addFrame_nbrFrameProcessed_of_true o hc,
      List.length_append, hlen]
    rfl
  · rw [addFrame_of_checkFrame_false o (checkFrame_false_of_not_true hc)]
    exact hlen

theorem runFrames_len_neg {G : Type} [Group G]
    (frames : List (PointCloud × FrameOutcome G)) {s : SlamState G}
    (hT : s.loggingTimeout < 0)
    (hlen : s.logTrajectory.length = s.nbrFrameProcessed) :
    (runFrames s frames).logTrajectory.length =
      (runFrames s frames).nbrFrameProcessed := by
  induction frames generalizing s with
  | nil => exact hlen
  | cons f rest ih =>
    exact ih (by rw [addFrame_loggingTimeout]; exact hT)
      (addFrame_len_neg f.1 f.2 hT hlen)

theorem addFrame_pos_bound {G : Type} [Group G] {s : SlamState G}
    (pc : PointCloud) (o : FrameOutcome G) {T : ℚ}
    (hT : s.loggingTimeout = T) (h0 : 0 < T)
    (hinv : ∀ t ∈ s.logTrajectory.map LogEntry.time, ∀ u,
      (s.logTrajectory.map LogEntry.time).getLast? = some u → u - t ≤ T) :
    ∀ t ∈ (addFrame s pc o).logTrajectory.map LogEntry.time, ∀ u,
      ((addFrame s pc o).logTrajectory.map LogEntry.time).getLast? =
        some u → u - t ≤ T := by
  by_cases hc : s.checkFrame pc = true
  · obtain ⟨e, _, heq⟩ := addFrame_logTrajectory_of_true o hc
    rw [heq, hT]
    exact logPush_pos_bound h0
  · rw [addFrame_of_checkFrame_false o (checkFrame_false_of_not_true hc)]
    exact hinv

theorem runFrames_pos_bound {G : Type} [Group G]
    (frames : List (PointCloud × FrameOutcome G)) {s : SlamState G}
    {T : ℚ} (hT : s.loggingTimeout = T) (h0 : 0 < T)
    (hinv : ∀ t ∈ s.logTrajectory.map LogEntry.time, ∀ u,
      (s.logTrajectory.map LogEntry.time).getLast? = some u → u - t ≤ T) :
    ∀ t ∈ (runFrames s frames).logTrajectory.map LogEntry.time, ∀ u,
      ((runFrames s frames).logTrajectory.map LogEntry.time).getLast? =
        some u → u - t ≤ T := by
  induction frames generalizing s with
  | nil => exact hinv
  | cons f rest ih =>
    exact ih ((addFrame_loggingTimeout s f.1 f.2).trans hT)
      (addFrame_pos_bound f.1 f.2 hT h0 hinv)

/-- C5: the trajectory log is bounded by `LoggingTimeout`: with timeout 0
no entries are ever logged (`GetTrajectory` and `GetCovariances` return
empty); with a negative timeout every processed frame's entry is retained
(one log entry per processed frame); with a positive timeout `T`, after
each frame every retained entry's timestamp is within `T` seconds of the
most recent entry's timestamp. -/
theorem loggingTimeout_bounds_log (G : Type) [Group G] (T : ℚ)
    (frames : List (PointCloud × FrameOutcome G)) :
    (T = 0 →
      (runFrames ((initSlam G).SetLoggingTimeout T)
        frames).GetTrajectory = [] ∧
      (runFrames ((initSlam G).SetLoggingTimeout T)
        frames).GetCovariances = []) ∧
    (T < 0 →
      (runFrames ((initSlam G).SetLoggingTimeout T)
        frames).logTrajectory.length =
      (runFrames ((initSlam G).SetLoggingTimeout T)
        frames).nbrFrameProcessed) ∧
    (0 < T →
      ∀ t ∈ (runFrames ((initSlam G).SetLoggingTimeout T)
          frames).logTrajectory.map LogEntry.time, ∀ u,
        ((runFrames ((initSlam G).SetLoggingTimeout T)
          frames).logTrajectory.map LogEntry.time).getLast? = some u →
          u - t ≤ T) := by
  refine ⟨?_, ?_, ?_⟩
  · intro h0
    have hl := runFrames_log_zero frames
      (s := (initSlam G).SetLoggingTimeout T) (by rw [← h0]; rfl) rfl
    constructor
    · unfold SlamState.GetTrajectory
      rw [hl]
      rfl
    · unfold SlamState.GetCovariances
      rw [hl]
      rfl
  · intro h0
    exact runFrames_len_neg frames (s := (initSlam G).SetLoggingTimeout T)
      h0 rfl
  · intro h0
    exact runFrames_pos_bound frames
      (s := (initSlam G).SetLoggingTimeout T) rfl h0
      (fun t ht => absurd ht (List.not_mem_nil t))

/-- Witness for C5 on concrete runs: timeout 0 yields an empty log, a
negative timeout retains the entry of the single processed frame, and with
timeout 1 the retained entry (timestamp 1) is within 1 second of the most
recent entry (itself). -/
theorem loggingTimeout_bounds_log_witness :
    ((runFrames ((initSlam (Multiplicative ℤ)).SetLoggingTimeout 0)
        [(oneCloud, trivialOutcome)]).GetTrajectory = [] ∧
      (runFrames ((initSlam (Multiplicative ℤ)).SetLoggingTimeout 0)
        [(oneCloud, trivialOutcome)]).GetCovariances = []) ∧
    ((runFrames ((initSlam (Multiplicative ℤ)).SetLoggingTimeout (-1))
        [(oneCloud, trivialOutcome)]).logTrajectory.length =
      (runFrames ((initSlam (Multiplicative ℤ)).SetLoggingTimeout (-1))
        [(oneCloud, trivialOutcome)]).nbrFrameProcessed) ∧
    ((1 : ℚ) - 1 ≤ 1) := by
  refine ⟨(loggingTimeout_bounds_log (Multiplicative ℤ) 0
      [(oneCloud, trivialOutcome)]).1 rfl,
    (loggingTimeout_bounds_log (Multiplicative ℤ) (-1)
      [(oneCloud, trivialOutcome)]).2.1 (by decide),
    (loggingTimeout_bounds_log (Multiplicative ℤ) 1
      [(oneCloud, trivialOutcome)]).2.2 (by decide) 1 ?_ 1 ?_⟩
  · have hn : ¬((1 : ℚ) < 0) := by decide
    simp [runFrames, addFrame, SlamState.checkFrame, initSlam,
      SlamState.SetLoggingTimeout, oneCloud, trivialOutcome, logPush, hn]
  · have hn : ¬((1 : ℚ) < 0) := by decide
    simp [runFrames, addFrame, SlamState.checkFrame, initSlam,
      SlamState.SetLoggingTimeout, oneCloud, trivialOutcome, logPush, hn]

end LidarSlam
